import Mathlib

/-!
Verification of the ebook-generation core of SMB.FALH against its
natural-language specification.

The embedding covers:
* `src/services/pdf.ts` — the page-count estimator `estimatePageCount` and the
  colour handling of the renderer (`addText` / `createPDF`);
* `src/services/gemini.ts` — `generateOutline` and `refineText`, with the
  external Gemini backend modelled as oracles;
* `src/components/EbookGenerator.tsx` — the generation pipeline
  `handleGenerate` (validation, outline, per-chapter content, enrichment loop,
  illustration), and the secondary operations `handleRefine` / `addFAQ`.

All JavaScript numeric computation that matters here is exact: every quantity
accumulated by the estimator is an integer multiple of 1/16 mm (the only
non-integer constant is the 16:9 image height `(170*9)/16 = 95.625` mm), and
IEEE doubles represent and add such values exactly at these magnitudes, so the
estimator is embedded over `Nat`, measured in sixteenths of a millimetre.
`Math.ceil(x / d)` on those exact values agrees with rational ceiling, embedded
as `ceilDiv` on the scaled integers.
-/

/-! ## Data model (`src/services/pdf.ts`) -/

/-- `chart` payload of a `Chapter` (`pdf.ts` lines 7–11).  The `value` field is
a JS number; the estimator and all claims ignore the values, so they are kept
as `Int`. -/
structure Chart where
  type : String
  data : List (String × Int)
  title : String
deriving DecidableEq, Repr

/-- `Chapter` (`pdf.ts` lines 3–12). -/
structure Chapter where
  title : String
  content : String
  image : Option String := none
  chart : Option Chart := none
deriving DecidableEq, Repr

/-- `font` field of `PDFOptions` (string-literal union in the source). -/
inductive PDFFont
  | helvetica
  | times
  | courier
deriving DecidableEq, Repr

/-- `quality` field of `PDFOptions` (string-literal union in the source). -/
inductive PDFQuality
  | standard
  | high
  | ultra
deriving DecidableEq, Repr

/-- `PDFOptions` (`pdf.ts` lines 14–23). -/
structure PDFOptions where
  primaryColor : String
  font : PDFFont
  headerText : Option String := none
  footerText : Option String := none
  logo : Option String := none
  watermark : Option String := none
  quality : PDFQuality
  noCompression : Bool
deriving DecidableEq, Repr

/-- The initial `pdfOptions` state of the component
(`EbookGenerator.tsx` lines 85–93). -/
def defaultOpts : PDFOptions :=
  { primaryColor := "#4f46e5"
    font := PDFFont.helvetica
    headerText := some "EbookAI SaaS Premium"
    footerText := some "Confidentiel - 2026"
    watermark := some ""
    quality := PDFQuality.high
    noCompression := true }

/-! ## Page geometry constants (`pdf.ts` lines 28–33) -/

def margin : Nat := 20
def pageWidth : Nat := 210
def maxLineWidth : Nat := pageWidth - margin * 2
def lineHeight : Nat := 7
def pageHeight : Nat := 297
def contentHeightPerPage : Nat := pageHeight - margin * 2 - 20

/-- `Math.ceil (a / b)` for non-negative integers, `b > 0`. -/
def ceilDiv (a b : Nat) : Nat := (a + b - 1) / b

/-! ## The estimator `estimatePageCount` (`pdf.ts` lines 25–60) -/

/-- JS `content.split('\n\n')`: split at each non-overlapping occurrence of the
two-character separator, scanning left to right; the empty string yields one
empty piece, as in JS. -/
def splitParasCh : List Char → List (List Char)
  | [] => [[]]
  | '\n' :: '\n' :: rest => [] :: splitParasCh rest
  | c :: rest =>
    match splitParasCh rest with
    | [] => [[c]]
    | p :: ps => (c :: p) :: ps

/-- The paragraph list of a chapter content string. -/
def paragraphs (s : String) : List (List Char) := splitParasCh s.data

/-- `Math.ceil((p.length * 0.25) / maxLineWidth)` (`pdf.ts` line 48):
`len * 0.25 / 170 = len / 680` exactly, so the ceiling is `ceilDiv len 680`. -/
def paraLines (p : List Char) : Nat := ceilDiv p.length (4 * maxLineWidth)

/-- One paragraph's contribution `lines * lineHeight + 5` (mm), in 1/16 mm. -/
def paraHeight16 (p : List Char) : Nat := paraLines p * lineHeight * 16 + 5 * 16

/-- The image block `(maxLineWidth * 9) / 16 + 10` (mm), in 1/16 mm:
`(170*9)/16` mm scales to exactly `170*9` sixteenths. -/
def imageHeight16 : Nat := maxLineWidth * 9 + 10 * 16

/-- The accumulated `currentY` of one chapter (`pdf.ts` lines 36–50),
in 1/16 mm: 20 mm of heading, the image block if an image is present, and the
per-paragraph contributions. -/
def chapterY16 (ch : Chapter) : Nat :=
  20 * 16
    + (if ch.image.isSome then imageHeight16 else 0)
    + ((paragraphs ch.content).map paraHeight16).sum

/-- One chapter's page contribution (`pdf.ts` lines 52–56):
`Math.ceil(currentY / contentHeightPerPage)` plus one page if a chart is
attached. -/
def chapterPages (ch : Chapter) : Nat :=
  ceilDiv (chapterY16 ch) (contentHeightPerPage * 16)
    + (if ch.chart.isSome then 1 else 0)

/-- `estimatePageCount` (`pdf.ts` lines 25–60): 2 pages (title + TOC) plus the
chapter contributions.  The body of the source function never reads
`options`. -/
def estimatePageCount (chapters : List Chapter) (options : PDFOptions) : Nat :=
  2 + (chapters.map chapterPages).sum

/-! ## Basic estimator lemmas -/

lemma ceilDiv_le_ceilDiv {a a' : Nat} (b : Nat) (h : a ≤ a') :
    ceilDiv a b ≤ ceilDiv a' b := by
  unfold ceilDiv
  exact Nat.div_le_div_right (by omega)

lemma one_le_ceilDiv {a b : Nat} (ha : 1 ≤ a) (hb : 1 ≤ b) :
    1 ≤ ceilDiv a b := by
  unfold ceilDiv
  rw [Nat.one_le_div_iff hb]
  omega

lemma one_le_chapterPages (ch : Chapter) : 1 ≤ chapterPages ch := by
  have h1 : 1 ≤ chapterY16 ch := by
    unfold chapterY16
    omega
  have := one_le_ceilDiv h1 (b := contentHeightPerPage * 16) (by decide)
  unfold chapterPages
  omega

/-- C8 — `estimatePageCount [] == 2` for any options. -/
theorem c8_empty_estimate (options : PDFOptions) :
    estimatePageCount [] options = 2 := rfl

/-- C9 — `estimatePageCount` returns at least `2 + #chapters`: every chapter
contributes at least one page, because the 20 mm heading allowance (plus the
per-paragraph gap) makes `currentY` positive, and its page conversion rounds
up to at least 1. -/
theorem c9_lower_bound (chapters : List Chapter) (options : PDFOptions) :
    2 + chapters.length ≤ estimatePageCount chapters options := by
  unfold estimatePageCount
  have h : chapters.length ≤ (chapters.map chapterPages).sum := by
    induction chapters with
    | nil => simp
    | cons a l ih =>
      simp only [List.map_cons, List.sum_cons, List.length_cons]
      have := one_le_chapterPages a
      omega
  omega

/-- C10 — `estimatePageCount` is completely independent of its options
argument: for every chapter list and any two options values the results
coincide (in particular font and quality have no effect). -/
theorem c10_options_independent (chapters : List Chapter)
    (o₁ o₂ : PDFOptions) :
    estimatePageCount chapters o₁ = estimatePageCount chapters o₂ := rfl

/-! ## C2 — monotonicity of the estimator

The claim's length-monotonicity is false: paragraphs are split on blank lines
and each paragraph contributes a 5 mm gap even when it is empty, so content
made of blank-line runs can be longer yet yield a smaller estimate.  Concrete
refuting pair: 78 newline characters followed by `x\n\nx` (82 characters,
41 paragraphs, one chapter page boundary crossed) versus 78 newline characters
followed by `aaaaa` (83 characters, 40 paragraphs, no boundary crossed). -/

def contentA : String := String.mk (List.replicate 78 '\n' ++ ['x', '\n', '\n', 'x'])

def contentB : String := String.mk (List.replicate 78 '\n' ++ ['a', 'a', 'a', 'a', 'a'])

/-- C2 — counterexample: two singleton chapter lists differing only in the one
chapter's content; the second content is longer (83 ≥ 82 characters) yet the
estimated page count drops from 4 to 3. -/
theorem c2_counterexample :
    contentA.length ≤ contentB.length
      ∧ estimatePageCount [{ title := "C", content := contentB }] defaultOpts
          < estimatePageCount [{ title := "C", content := contentA }] defaultOpts := by
  constructor
  · decide
  · decide

/-- Pointwise paragraph domination: same number of paragraphs, each paragraph
of the second content at least as long as the corresponding one of the
first. -/
def paraDominated (c₁ c₂ : String) : Prop :=
  List.Forall₂ (fun p q : List Char => p.length ≤ q.length)
    (paragraphs c₁) (paragraphs c₂)

lemma paraHeight16_mono {p q : List Char} (h : p.length ≤ q.length) :
    paraHeight16 p ≤ paraHeight16 q := by
  unfold paraHeight16 paraLines
  have h2 := ceilDiv_le_ceilDiv (4 * maxLineWidth) h
  have := Nat.mul_le_mul_right lineHeight h2
  omega

lemma sum_paraHeight16_mono : ∀ {ps qs : List (List Char)},
    List.Forall₂ (fun p q : List Char => p.length ≤ q.length) ps qs →
    (ps.map paraHeight16).sum ≤ (qs.map paraHeight16).sum := by
  intro ps qs h
  induction h with
  | nil => exact le_refl _
  | cons hpq _ ih =>
    simp only [List.map_cons, List.sum_cons]
    exact Nat.add_le_add (paraHeight16_mono hpq) ih

lemma chapterPages_mono_content {ch : Chapter} {c₂ : String}
    (h : paraDominated ch.content c₂) :
    chapterPages ch ≤ chapterPages { ch with content := c₂ } := by
  unfold chapterPages
  have hy : chapterY16 ch ≤ chapterY16 { ch with content := c₂ } := by
    unfold chapterY16
    have := sum_paraHeight16_mono h
    simp only
    omega
  have := ceilDiv_le_ceilDiv (contentHeightPerPage * 16) hy
  simp only
  omega

lemma chapterPages_mono_image (ch : Chapter) (img : String) :
    chapterPages ch ≤ chapterPages { ch with image := some img } := by
  unfold chapterPages
  have hy : chapterY16 ch ≤ chapterY16 { ch with image := some img } := by
    unfold chapterY16
    cases ch.image <;> simp [imageHeight16]
  have := ceilDiv_le_ceilDiv (contentHeightPerPage * 16) hy
  simp only
  omega

lemma chapterPages_mono_chart (ch : Chapter) (cht : Chart) :
    chapterPages ch ≤ chapterPages { ch with chart := some cht } := by
  unfold chapterPages
  have hy : chapterY16 ch = chapterY16 { ch with chart := some cht } := rfl
  rw [hy]
  cases ch.chart <;> simp

lemma sum_map_set_le : ∀ (l : List Chapter) (j : Nat) {ch ch' : Chapter},
    l.get? j = some ch → chapterPages ch ≤ chapterPages ch' →
    (l.map chapterPages).sum ≤ ((l.set j ch').map chapterPages).sum := by
  intro l
  induction l with
  | nil => intro j ch ch' hj _; simp at hj
  | cons a t ih =>
    intro j ch ch' hj hle
    cases j with
    | zero =>
      simp only [List.get?] at hj
      injection hj with hj
      subst hj
      simp only [List.set, List.map_cons, List.sum_cons]
      omega
    | succ j =>
      simp only [List.get?] at hj
      have := ih j hj hle
      simp only [List.set, List.map_cons, List.sum_cons]
      omega

/-- C2 amended — `estimatePageCount` is monotone in a chapter's content when
the replacement keeps the paragraph structure and lengthens each paragraph
(pointwise paragraph-length domination); and giving a chapter an image, or a
chart, never decreases the estimate. -/
theorem c2_amended :
    (∀ (l : List Chapter) (j : Nat) (ch : Chapter) (c₂ : String)
        (opts : PDFOptions), l.get? j = some ch → paraDominated ch.content c₂ →
        estimatePageCount l opts
          ≤ estimatePageCount (l.set j { ch with content := c₂ }) opts)
    ∧ (∀ (l : List Chapter) (j : Nat) (ch : Chapter) (img : String)
        (opts : PDFOptions), l.get? j = some ch →
        estimatePageCount l opts
          ≤ estimatePageCount (l.set j { ch with image := some img }) opts)
    ∧ (∀ (l : List Chapter) (j : Nat) (ch : Chapter) (cht : Chart)
        (opts : PDFOptions), l.get? j = some ch →
        estimatePageCount l opts
          ≤ estimatePageCount (l.set j { ch with chart := some cht }) opts) := by
  refine ⟨?_, ?_, ?_⟩
  · intro l j ch c₂ opts hj hdom
    unfold estimatePageCount
    have := sum_map_set_le l j hj (chapterPages_mono_content hdom)
    omega
  · intro l j ch img opts hj
    unfold estimatePageCount
    have := sum_map_set_le l j hj (chapterPages_mono_image ch img)
    omega
  · intro l j ch cht opts hj
    unfold estimatePageCount
    have := sum_map_set_le l j hj (chapterPages_mono_chart ch cht)
    omega

def chW : Chapter := { title := "T", content := "ab" }

/-- Witness for `c2_amended` at concrete inputs. -/
theorem c2_amended_witness :
    (([chW].get? 0 = some chW ∧ paraDominated chW.content "abcd")
      ∧ estimatePageCount [chW] defaultOpts
          ≤ estimatePageCount ([chW].set 0 { chW with content := "abcd" }) defaultOpts)
    ∧ estimatePageCount [chW] defaultOpts
        ≤ estimatePageCount ([chW].set 0 { chW with image := some "img" }) defaultOpts
    ∧ estimatePageCount [chW] defaultOpts
        ≤ estimatePageCount
            ([chW].set 0 { chW with chart := some ⟨"bar", [("a", 1)], "G"⟩ }) defaultOpts := by
  have hdom : paraDominated chW.content "abcd" :=
    List.Forall₂.cons (by decide) List.Forall₂.nil
  exact ⟨⟨⟨rfl, hdom⟩, c2_amended.1 [chW] 0 chW "abcd" defaultOpts rfl hdom⟩,
    c2_amended.2.1 [chW] 0 chW "img" defaultOpts rfl,
    c2_amended.2.2 [chW] 0 chW ⟨"bar", [("a", 1)], "G"⟩ defaultOpts rfl⟩

/-! ## C5 — colour handling of the renderer (`pdf.ts` lines 74–99, 126–135)

`addText` sets the text colour to black only when *no* colour argument is
supplied; when a colour string is supplied it passes
`parseInt(color.slice(1,3),16)` (etc.) to `setTextColor` unconditionally —
there is no fallback on parse failure, JS `NaN` (modelled as `none`) is passed
through.  The title page (`createPDF` lines 128–131) parses
`options.primaryColor` the same way with no fallback at all. -/

/-- JS whitespace test used by `parseInt`, restricted to the ASCII whitespace
characters (space, tab, LF, CR); the colour strings of this program contain no
exotic whitespace. -/
def isJsWs (c : Char) : Bool :=
  decide (c.toNat = 32) || decide (c.toNat = 9) || decide (c.toNat = 10)
    || decide (c.toNat = 13)

/-- Hexadecimal digit test (`0-9`, `a-f`, `A-F`). -/
def isHexDigitJs (c : Char) : Bool :=
  (decide (48 ≤ c.toNat) && decide (c.toNat ≤ 57))
    || (decide (97 ≤ c.toNat) && decide (c.toNat ≤ 102))
    || (decide (65 ≤ c.toNat) && decide (c.toNat ≤ 70))

/-- Value of a hexadecimal digit. -/
def hexVal (c : Char) : Nat :=
  if c.toNat ≤ 57 then c.toNat - 48
  else if 97 ≤ c.toNat then c.toNat - 87
  else c.toNat - 55

/-- Optional leading sign of a JS `parseInt` argument. -/
def stripSign : List Char → Int × List Char
  | [] => (1, [])
  | c :: rest =>
    if c = '-' then (-1, rest)
    else if c = '+' then (1, rest)
    else (1, c :: rest)

/-- Optional `0x`/`0X` marker stripped by JS `parseInt` at radix 16. -/
def strip0x : List Char → List Char
  | c₁ :: c₂ :: rest =>
    if c₁ = '0' ∧ (c₂ = 'x' ∨ c₂ = 'X') then rest else c₁ :: c₂ :: rest
  | l => l

/-- Accumulated value of a hexadecimal digit run. -/
def hexDigitsVal (l : List Char) : Nat :=
  l.foldl (fun acc c => acc * 16 + hexVal c) 0

/-- Modelled from JS `parseInt(s, 16)`: skip leading whitespace, read an
optional sign and an optional `0x` marker, then evaluate the longest leading
run of hexadecimal digits; an empty run is `NaN`, modelled as `none`. -/
def parseIntHex (l : List Char) : Option Int :=
  if (strip0x (stripSign (l.dropWhile isJsWs)).2).takeWhile isHexDigitJs = [] then
    none
  else
    some ((stripSign (l.dropWhile isJsWs)).1
      * (hexDigitsVal
          ((strip0x (stripSign (l.dropWhile isJsWs)).2).takeWhile isHexDigitJs) : Int))

/-- JS `s.slice(a, b)` for `0 ≤ a ≤ b`. -/
def jsSlice (l : List Char) (a b : Nat) : List Char := (l.drop a).take (b - a)

/-- The `(r,g,b)` arguments `addText` passes to `setTextColor`
(`pdf.ts` lines 77–84): black `(0,0,0)` exactly when no colour argument is
supplied; otherwise the three `parseInt(color.slice(..), 16)` results, with
`none` standing for JS `NaN`. -/
def setTextColorArgs (color : Option String) :
    Option Int × Option Int × Option Int :=
  match color with
  | none => (some 0, some 0, some 0)
  | some c =>
    (parseIntHex (jsSlice c.data 1 3), parseIntHex (jsSlice c.data 3 5),
      parseIntHex (jsSlice c.data 5 7))

/-- The `(r,g,b)` arguments the title page passes to `setTextColor`
(`createPDF`, `pdf.ts` lines 128–131): always the raw parses of
`options.primaryColor`, with no fallback. -/
def titleColorArgs (options : PDFOptions) :
    Option Int × Option Int × Option Int :=
  (parseIntHex (jsSlice options.primaryColor.data 1 3),
    parseIntHex (jsSlice options.primaryColor.data 3 5),
    parseIntHex (jsSlice options.primaryColor.data 5 7))

/-- C5 — counterexample: the string `"red"` does not parse as a 6-hex-digit
RGB string, yet the layout engine does not fall back to black: `addText`
passes `(237, NaN, NaN)` (the slice `"ed"` parses as 237, the empty slices as
`NaN`), and the title page does the same. -/
theorem c5_counterexample :
    setTextColorArgs (some "red") = (some 237, none, none)
      ∧ setTextColorArgs (some "red") ≠ (some 0, some 0, some 0)
      ∧ titleColorArgs { defaultOpts with primaryColor := "red" }
          ≠ (some 0, some 0, some 0) := by
  refine ⟨by decide, by decide, by decide⟩

lemma hexDigit_toNat {c : Char} (h : isHexDigitJs c = true) :
    (48 ≤ c.toNat ∧ c.toNat ≤ 57) ∨ (97 ≤ c.toNat ∧ c.toNat ≤ 102)
      ∨ (65 ≤ c.toNat ∧ c.toNat ≤ 70) := by
  simp only [isHexDigitJs, Bool.or_eq_true, Bool.and_eq_true,
    decide_eq_true_eq] at h
  tauto

lemma hex_ne_chars {c : Char} (h : isHexDigitJs c = true) :
    c ≠ '-' ∧ c ≠ '+' ∧ c ≠ 'x' ∧ c ≠ 'X' ∧ isJsWs c = false := by
  refine ⟨?_, ?_, ?_, ?_, ?_⟩
  · rintro rfl; exact absurd h (by decide)
  · rintro rfl; exact absurd h (by decide)
  · rintro rfl; exact absurd h (by decide)
  · rintro rfl; exact absurd h (by decide)
  · cases hw : isJsWs c with
    | false => rfl
    | true =>
      exfalso
      have hr := hexDigit_toNat h
      simp only [isJsWs, Bool.or_eq_true, decide_eq_true_eq] at hw
      omega

lemma hexVal_le {c : Char} (h : isHexDigitJs c = true) : hexVal c ≤ 15 := by
  have := hexDigit_toNat h
  unfold hexVal
  split_ifs <;> omega

lemma parseIntHex_pair {a b : Char} (ha : isHexDigitJs a = true)
    (hb : isHexDigitJs b = true) :
    parseIntHex [a, b] = some ((16 * hexVal a + hexVal b : Nat) : Int) := by
  obtain ⟨ha1, ha2, -, -, ha5⟩ := hex_ne_chars ha
  obtain ⟨-, -, hb3, hb4, -⟩ := hex_ne_chars hb
  have hdrop : ([a, b].dropWhile isJsWs) = [a, b] := by
    simp [List.dropWhile, ha5]
  have hsign : stripSign [a, b] = (1, [a, b]) := by
    simp [stripSign, ha1, ha2]
  have h0x : strip0x [a, b] = [a, b] := by
    show (if a = '0' ∧ (b = 'x' ∨ b = 'X') then ([] : List Char) else [a, b])
        = [a, b]
    rw [if_neg]
    rintro ⟨-, hx | hX⟩
    · exact hb3 hx
    · exact hb4 hX
  have htake : ([a, b].takeWhile isHexDigitJs) = [a, b] := by
    simp [List.takeWhile, ha, hb]
  unfold parseIntHex
  rw [hdrop, hsign, h0x, htake]
  rw [if_neg (by simp)]
  have hv : hexDigitsVal [a, b] = 16 * hexVal a + hexVal b := by
    simp only [hexDigitsVal, List.foldl]
    omega
  rw [hv, one_mul]

/-- C5 amended — `addText` renders in black exactly when it is called with no
colour argument; a supplied colour string is never validated: its three
2-character slices are `parseInt`-parsed and for a string of the form `#`
followed by six hexadecimal digits this yields the three 0–255 channel values,
while a string that does not parse yields `NaN` channels passed through to
`setTextColor` (not black). -/
theorem c5_amended :
    setTextColorArgs none = (some 0, some 0, some 0)
    ∧ (∀ d₁ d₂ d₃ d₄ d₅ d₆ : Char,
        isHexDigitJs d₁ = true → isHexDigitJs d₂ = true →
        isHexDigitJs d₃ = true → isHexDigitJs d₄ = true →
        isHexDigitJs d₅ = true → isHexDigitJs d₆ = true →
        setTextColorArgs (some (String.mk ['#', d₁, d₂, d₃, d₄, d₅, d₆]))
            = (some ((16 * hexVal d₁ + hexVal d₂ : Nat) : Int),
                some ((16 * hexVal d₃ + hexVal d₄ : Nat) : Int),
                some ((16 * hexVal d₅ + hexVal d₆ : Nat) : Int))
          ∧ 16 * hexVal d₁ + hexVal d₂ ≤ 255
          ∧ 16 * hexVal d₃ + hexVal d₄ ≤ 255
          ∧ 16 * hexVal d₅ + hexVal d₆ ≤ 255) := by
  refine ⟨rfl, ?_⟩
  intro d₁ d₂ d₃ d₄ d₅ d₆ h₁ h₂ h₃ h₄ h₅ h₆
  refine ⟨?_, ?_, ?_, ?_⟩
  · show (parseIntHex [d₁, d₂], parseIntHex [d₃, d₄], parseIntHex [d₅, d₆]) = _
    rw [parseIntHex_pair h₁ h₂, parseIntHex_pair h₃ h₄, parseIntHex_pair h₅ h₆]
  · have := hexVal_le h₁; have := hexVal_le h₂; omega
  · have := hexVal_le h₃; have := hexVal_le h₄; omega
  · have := hexVal_le h₅; have := hexVal_le h₆; omega

/-- Witness for `c5_amended` at the concrete colour `#4f46e5`. -/
theorem c5_amended_witness :
    (isHexDigitJs '4' = true ∧ isHexDigitJs 'f' = true
        ∧ isHexDigitJs '6' = true ∧ isHexDigitJs 'e' = true
        ∧ isHexDigitJs '5' = true)
      ∧ setTextColorArgs (some (String.mk ['#', '4', 'f', '4', '6', 'e', '5']))
            = (some ((16 * hexVal '4' + hexVal 'f' : Nat) : Int),
                some ((16 * hexVal '4' + hexVal '6' : Nat) : Int),
                some ((16 * hexVal 'e' + hexVal '5' : Nat) : Int))
          ∧ 16 * hexVal '4' + hexVal 'f' ≤ 255
          ∧ 16 * hexVal '4' + hexVal '6' ≤ 255
          ∧ 16 * hexVal 'e' + hexVal '5' ≤ 255 :=
  ⟨⟨by decide, by decide, by decide, by decide, by decide⟩,
    c5_amended.2 '4' 'f' '4' '6' 'e' '5' (by decide) (by decide) (by decide)
      (by decide) (by decide) (by decide)⟩

/-! ## The generation backend and the pipeline (`gemini.ts`, `EbookGenerator.tsx`)

The Gemini backend is external; each call the pipeline makes is modelled as an
oracle.  `JSON.parse` followed by the source's unchecked cast to
`EbookOutline` is modelled as an oracle producing any value of the structural
type (`none` models a `JSON.parse` exception); note the TypeScript type admits
empty `chapters` and `sections` arrays.  `refineText` is modelled as a total
function from text to text (claim C1 quantifies over its behaviour); a
throwing `refineText` would abort the pipeline through the outer catch, a path
no claim touches. -/

/-- Section plan of the outline (`gemini.ts` lines 9–11). -/
structure SectionPlan where
  title : String
deriving DecidableEq, Repr

/-- Chapter plan of the outline (`gemini.ts` lines 7–12). -/
structure ChapterPlan where
  title : String
  sections : List SectionPlan
deriving DecidableEq, Repr

/-- `EbookOutline` (`gemini.ts` lines 5–13). -/
structure EbookOutline where
  title : String
  chapters : List ChapterPlan
deriving DecidableEq, Repr

/-- The `action` argument of `refineText` (`gemini.ts` line 124). -/
inductive RefineAction
  | rewrite
  | simplify
  | enrich
  | formal
  | storytelling
deriving DecidableEq, Repr

/-- Oracles for the external generation backend, per call site of the
pipeline. -/
structure Backend where
  /-- Transport outcome of the outline `generateContent` call
  (`gemini.ts` lines 23–56): an error, or the response text. -/
  outlineResponse : Except String String
  /-- `JSON.parse` plus the unchecked cast of `generateOutline`
  (`gemini.ts` line 59); `none` models a parse exception. -/
  parseOutline : String → Option EbookOutline
  /-- `generateChapterContent` for chapter index `i`
  (`gemini.ts` lines 66–89): transport error, or `response.text || ""`. -/
  chapterContent : Nat → Except String String
  /-- `refineText(content, 'enrich')` used by the enrichment loop
  (`gemini.ts` lines 124–139), as a total text transformer. -/
  refine : String → String
  /-- `generateImage` for chapter index `i` (`gemini.ts` lines 91–122);
  `none` models a thrown error (swallowed at the call site). -/
  image : Nat → Option String

/-- `generateOutline` (`gemini.ts` lines 15–64): propagate a transport error;
otherwise `JSON.parse(response.text || "{}")`, throwing the fixed message on a
parse failure.  The parsed value is returned with NO validation of the
outline shape. -/
def generateOutlineCall (b : Backend) : Except String EbookOutline :=
  match b.outlineResponse with
  | Except.error e => Except.error e
  | Except.ok text =>
    match b.parseOutline (if text = "" then "\x7b\x7d" else text) with
    | some o => Except.ok o
    | none => Except.error "Erreur lors de la génération du plan."

/-- Modelled from JS `topic.trim()`: strip leading and trailing whitespace,
restricted (like `isJsWs`) to the ASCII whitespace characters appearing in
this program's strings.  (Core `String.trim` is equivalent on such strings
but is defined by well-founded recursion, which blocks kernel evaluation.) -/
def jsTrim (s : String) : String :=
  String.mk (((s.data.dropWhile isJsWs).reverse.dropWhile isJsWs).reverse)

/-- `err.message || "Une erreur est survenue."`
(`EbookGenerator.tsx` line 215). -/
def caughtMessage (e : String) : String :=
  if e = "" then "Une erreur est survenue." else e

/-- The arguments of one `handleGenerate` invocation; `finalTarget` is the
resolved `customPages ? parseInt(customPages) : targetPages`
(`EbookGenerator.tsx` line 133). -/
structure GenInput where
  topic : String
  ebookType : String
  finalTarget : Nat
  isPrototype : Bool
  opts : PDFOptions

/-- Instrumentation of one pipeline run: how many times each backend oracle
was consulted and, in order, the chapter indices for which an image was
requested. -/
structure Trace where
  outlineCalls : Nat
  contentCalls : Nat
  refineCalls : Nat
  imageRequests : List Nat
deriving DecidableEq, Repr

def emptyTrace : Trace :=
  { outlineCalls := 0, contentCalls := 0, refineCalls := 0, imageRequests := [] }

/-- Observable result of `handleGenerate`: silent return on an empty topic
(`tsx` line 135), the page-range validation error (`tsx` lines 136–139), the
catch branch with the chapters accumulated so far (`tsx` lines 214–217),
enrichment-fuel exhaustion (models non-termination of the enrichment loop),
or completion. -/
inductive Outcome
  | invalidTopic
  | invalidPages (msg : String)
  | errored (msg : String) (chapters : List Chapter)
  | stuck (chapters : List Chapter)
  | done (chapters : List Chapter)
deriving DecidableEq, Repr

/-- The error message the user sees, if any: `setError` is called with a
message only in the page-range branch and the catch branch. -/
def surfacedError : Outcome → Option String
  | Outcome.invalidPages m => some m
  | Outcome.errored m _ => some m
  | _ => none

/-- The enrichment-loop guard (`EbookGenerator.tsx` line 173):
`!isPrototype && estimatePageCount([...chapters, {title, content}]) <
(i+1)*pagesPerChapter && content.length < 15000`. -/
def enrichGuard (isPrototype : Bool) (prev : List Chapter)
    (title content : String) (chapterTarget : Nat) (opts : PDFOptions) : Bool :=
  !isPrototype
    && decide (estimatePageCount
          (prev ++ [{ title := title, content := content }]) opts < chapterTarget)
    && decide (content.length < 15000)

/-- The enrichment `while` loop (`EbookGenerator.tsx` lines 171–177), with
explicit fuel: returns the final content and the number of `refineText` calls
made, or `none` when the guard still holds after `fuel` iterations (the
source loop has no iteration cap, so exhausted fuel models an unfinished
loop). -/
def runEnrich (refine : String → String) (isPrototype : Bool)
    (prev : List Chapter) (title : String) (chapterTarget : Nat)
    (opts : PDFOptions) : Nat → String → Option (String × Nat)
  | 0, content =>
    if enrichGuard isPrototype prev title content chapterTarget opts then none
    else some (content, 0)
  | fuel + 1, content =>
    if enrichGuard isPrototype prev title content chapterTarget opts then
      match runEnrich refine isPrototype prev title chapterTarget opts fuel
          (refine content) with
      | some (c, n) => some (c, n + 1)
      | none => none
    else some (content, 0)

/-- The per-chapter loop of `handleGenerate`
(`EbookGenerator.tsx` lines 158–189): for each chapter plan in order, request
the chapter content (a transport error aborts through the catch branch), run
the enrichment loop, request an image when `i % (isPrototype ? 1 : 3) === 0`
(a failed image call is swallowed: the chapter keeps `image := none`), append
the chapter and continue. -/
def runChapters (b : Backend) (inp : GenInput) (ppc fuel : Nat) :
    List ChapterPlan → Nat → List Chapter → Trace → Outcome × Trace
  | [], _, acc, tr => (Outcome.done acc, tr)
  | plan :: rest, i, acc, tr =>
    match b.chapterContent i with
    | Except.error e =>
      (Outcome.errored (caughtMessage e) acc,
        { tr with contentCalls := tr.contentCalls + 1 })
    | Except.ok content0 =>
      match runEnrich b.refine inp.isPrototype acc plan.title ((i + 1) * ppc)
          inp.opts fuel content0 with
      | none => (Outcome.stuck acc, { tr with contentCalls := tr.contentCalls + 1 })
      | some (content, n) =>
        if i % (if inp.isPrototype then 1 else 3) = 0 then
          runChapters b inp ppc fuel rest (i + 1)
            (acc ++ [{ title := plan.title, content := content, image := b.image i }])
            { tr with contentCalls := tr.contentCalls + 1,
                      refineCalls := tr.refineCalls + n,
                      imageRequests := tr.imageRequests ++ [i] }
        else
          runChapters b inp ppc fuel rest (i + 1)
            (acc ++ [{ title := plan.title, content := content }])
            { tr with contentCalls := tr.contentCalls + 1,
                      refineCalls := tr.refineCalls + n }

/-- The page-range validation message (`EbookGenerator.tsx` line 137). -/
def pagesErrorMsg : String := "Le nombre de pages doit être compris entre 10 et 200."

/-- `handleGenerate` (`EbookGenerator.tsx` lines 132–218): empty-topic check
(silent return), page-range check (sets the validation error), then the
outline call followed by the chapter loop.
`pagesPerChapter = Math.ceil(finalTarget / chapterCount)` (`tsx` line 156);
for an outline with zero chapters JS produces `Infinity` here, but the value
is never read because the loop body never runs, so `ceilDiv` stands in. -/
def handleGenerate (b : Backend) (inp : GenInput) (fuel : Nat) : Outcome × Trace :=
  if jsTrim inp.topic = "" then (Outcome.invalidTopic, emptyTrace)
  else if inp.finalTarget < 10 ∨ 200 < inp.finalTarget then
    (Outcome.invalidPages pagesErrorMsg, emptyTrace)
  else
    match generateOutlineCall b with
    | Except.error e =>
      (Outcome.errored (caughtMessage e) [], { emptyTrace with outlineCalls := 1 })
    | Except.ok outline =>
      runChapters b inp (ceilDiv inp.finalTarget outline.chapters.length) fuel
        outline.chapters 0 [] { emptyTrace with outlineCalls := 1 }

/-! ## C1 — termination of the enrichment loop

The source loop (`EbookGenerator.tsx` lines 171–177) has no iteration cap:
its guard depends only on the current content.  If `refineText` returns its
input unchanged — which the real `refineText` does whenever the backend
returns empty text (`return response.text || text`, `gemini.ts` line 138) —
the guard never changes, so no amount of fuel finishes the loop. -/

/-- C1 — counterexample: a concrete non-prototype chapter (empty previous
chapters, proportional target 5 pages, initial content `"c"`) with
`refineText` behaving as the identity; the enrichment loop exits after no
number of iterations, so its iteration count is not finite. -/
theorem c1_counterexample :
    ¬ ∃ (fuel : Nat) (r : String × Nat),
        runEnrich (fun s => s) false [] "T" 5 defaultOpts fuel "c" = some r := by
  have hg : enrichGuard false [] "T" "c" 5 defaultOpts = true := by decide
  have hnone : ∀ fuel,
      runEnrich (fun s => s) false [] "T" 5 defaultOpts fuel "c" = none := by
    intro fuel
    induction fuel with
    | zero => simp [runEnrich, hg]
    | succ n ih => simp [runEnrich, hg, ih]
  rintro ⟨fuel, r, hr⟩
  rw [hnone fuel] at hr
  exact Option.noConfusion hr

lemma runEnrich_total (refineFn : String → String)
    (hlen : ∀ s : String, s.length < (refineFn s).length)
    (isPrototype : Bool) (prev : List Chapter) (title : String)
    (chapterTarget : Nat) (opts : PDFOptions) :
    ∀ (fuel : Nat) (content : String), 15000 ≤ content.length + fuel →
      ∃ c n, runEnrich refineFn isPrototype prev title chapterTarget opts fuel
          content = some (c, n) ∧ n ≤ fuel := by
  intro fuel
  induction fuel with
  | zero =>
    intro content h
    have hguard :
        enrichGuard isPrototype prev title content chapterTarget opts = false := by
      unfold enrichGuard
      have hc : decide (content.length < 15000) = false := by
        simp only [decide_eq_false_iff_not]
        omega
      simp [hc]
    exact ⟨content, 0, by simp [runEnrich, hguard], Nat.le_refl 0⟩
  | succ n ih =>
    intro content h
    cases hguard : enrichGuard isPrototype prev title content chapterTarget opts with
    | false => exact ⟨content, 0, by simp [runEnrich, hguard], by omega⟩
    | true =>
      have h2 : 15000 ≤ (refineFn content).length + n := by
        have := hlen content
        omega
      obtain ⟨c, m, hrun, hm⟩ := ih (refineFn content) h2
      exact ⟨c, m + 1, by simp [runEnrich, hguard, hrun], by omega⟩

/-- C1 amended — the enrichment loop terminates, within at most 15000
iterations, whenever every `refineText` call strictly increases the content
length (the 15000-character guard then bounds the iteration count); for an
arbitrary `refineText` — e.g. one returning its input unchanged — the loop
need not terminate (see the counterexample), as the source caps nothing. -/
theorem c1_amended (refineFn : String → String) (prev : List Chapter)
    (title : String) (chapterTarget : Nat) (opts : PDFOptions)
    (isPrototype : Bool) (content : String)
    (hlen : ∀ s : String, s.length < (refineFn s).length) :
    ∃ c n, runEnrich refineFn isPrototype prev title chapterTarget opts 15000
        content = some (c, n) ∧ n ≤ 15000 :=
  runEnrich_total refineFn hlen isPrototype prev title chapterTarget opts 15000
    content (by omega)

/-- Witness for `c1_amended` with the strictly-lengthening refinement
`s ↦ s ++ "a"`. -/
theorem c1_amended_witness :
    (∀ s : String, s.length < (s ++ "a").length)
      ∧ ∃ c n, runEnrich (fun s => s ++ "a") false [] "T" 5 defaultOpts 15000 "c"
          = some (c, n) ∧ n ≤ 15000 := by
  have hone : ("a" : String).length = 1 := rfl
  have hlen : ∀ s : String, s.length < (s ++ "a").length := by
    intro s
    rw [String.length_append, hone]
    omega
  exact ⟨hlen, c1_amended (fun s => s ++ "a") [] "T" 5 defaultOpts false "c" hlen⟩

/-! ## C6 — `handleRefine` and `addFAQ` (`EbookGenerator.tsx` lines 232–252) -/

/-- `handleRefine` (`tsx` lines 232–241): on success the chapter's content is
replaced by exactly the transformed text; a thrown error (including the
out-of-range access before the call) is swallowed, leaving the list
unchanged.  The oracle stands for `refineText(content, action)`. -/
def handleRefine (refineCall : String → RefineAction → Except String String)
    (chapters : List Chapter) (index : Nat) (action : RefineAction) :
    List Chapter :=
  match chapters.get? index with
  | none => chapters
  | some ch =>
    match refineCall ch.content action with
    | Except.error _ => chapters
    | Except.ok refined => chapters.set index { ch with content := refined }

/-- The fixed heading marker inserted by `addFAQ` (`tsx` line 248). -/
def faqHeading : String := "\n\n### Foire Aux Questions\n"

/-- `addFAQ` (`tsx` lines 243–252): on success the generated FAQ text is
appended to the chapter's content under the fixed heading marker; failures
are swallowed.  The oracle stands for `generateFAQ(content)`. -/
def addFAQ (faqCall : String → Except String String)
    (chapters : List Chapter) (index : Nat) : List Chapter :=
  match chapters.get? index with
  | none => chapters
  | some ch =>
    match faqCall ch.content with
    | Except.error _ => chapters
    | Except.ok faq =>
      chapters.set index { ch with content := ch.content ++ faqHeading ++ faq }

/-- C6 — for every chapter and every refinement action: a successful refine
replaces the chapter's content wholesale with exactly the transformed text; a
successful `addFAQ` keeps the original content as a prefix and appends the
FAQ under the fixed heading marker; and in both operations a failing backend
call leaves the chapter list unchanged (the error is swallowed). -/
theorem c6_refine_addfaq :
    (∀ (refineCall : String → RefineAction → Except String String)
        (chapters : List Chapter) (index : Nat) (action : RefineAction)
        (ch : Chapter) (t : String),
        chapters.get? index = some ch →
        refineCall ch.content action = Except.ok t →
        handleRefine refineCall chapters index action
          = chapters.set index { ch with content := t })
    ∧ (∀ (refineCall : String → RefineAction → Except String String)
        (chapters : List Chapter) (index : Nat) (action : RefineAction)
        (ch : Chapter) (e : String),
        chapters.get? index = some ch →
        refineCall ch.content action = Except.error e →
        handleRefine refineCall chapters index action = chapters)
    ∧ (∀ (faqCall : String → Except String String)
        (chapters : List Chapter) (index : Nat) (ch : Chapter) (f : String),
        chapters.get? index = some ch →
        faqCall ch.content = Except.ok f →
        addFAQ faqCall chapters index
            = chapters.set index
                { ch with content := ch.content ++ faqHeading ++ f }
          ∧ ch.content.data <+: (ch.content ++ faqHeading ++ f).data)
    ∧ (∀ (faqCall : String → Except String String)
        (chapters : List Chapter) (index : Nat) (ch : Chapter) (e : String),
        chapters.get? index = some ch →
        faqCall ch.content = Except.error e →
        addFAQ faqCall chapters index = chapters) := by
  refine ⟨?_, ?_, ?_, ?_⟩
  · intro refineCall chapters index action ch t hget hcall
    unfold handleRefine
    rw [hget]
    simp [hcall]
  · intro refineCall chapters index action ch e hget hcall
    unfold handleRefine
    rw [hget]
    simp [hcall]
  · intro faqCall chapters index ch f hget hcall
    constructor
    · unfold addFAQ
      rw [hget]
      simp [hcall]
    · refine ⟨(faqHeading ++ f).data, ?_⟩
      simp [String.data_append]
  · intro faqCall chapters index ch e hget hcall
    unfold addFAQ
    rw [hget]
    simp [hcall]

def chF : Chapter := { title := "T", content := "body" }

def okRefine : String → RefineAction → Except String String :=
  fun s _ => Except.ok (s ++ "!")

def errRefine : String → RefineAction → Except String String :=
  fun _ _ => Except.error "boom"

def okFaq : String → Except String String := fun _ => Except.ok "Q1"

def errFaq : String → Except String String := fun _ => Except.error "boom"

/-- Witness for `c6_refine_addfaq` at concrete inputs. -/
theorem c6_witness :
    handleRefine okRefine [chF] 0 RefineAction.enrich
        = [chF].set 0 { chF with content := "body" ++ "!" }
    ∧ handleRefine errRefine [chF] 0 RefineAction.enrich = [chF]
    ∧ (addFAQ okFaq [chF] 0
          = [chF].set 0 { chF with content := chF.content ++ faqHeading ++ "Q1" }
        ∧ chF.content.data <+: (chF.content ++ faqHeading ++ "Q1").data)
    ∧ addFAQ errFaq [chF] 0 = [chF] :=
  ⟨c6_refine_addfaq.1 okRefine [chF] 0 RefineAction.enrich chF ("body" ++ "!")
      rfl rfl,
    c6_refine_addfaq.2.1 errRefine [chF] 0 RefineAction.enrich chF "boom" rfl rfl,
    c6_refine_addfaq.2.2.1 okFaq [chF] 0 chF "Q1" rfl rfl,
    c6_refine_addfaq.2.2.2 errFaq [chF] 0 chF "boom" rfl rfl⟩

/-! ## C3 — outline failure semantics

`generateOutline` throws only on a transport error or a `JSON.parse`
exception; the parsed value is cast unchecked, so the Outline *shape* (a
non-empty chapter sequence) is never validated: a response parsing to an
empty chapter list completes the pipeline without any error. -/

def bC3 : Backend :=
  { outlineResponse := Except.ok "x"
    parseOutline := fun _ => some { title := "T", chapters := [] }
    chapterContent := fun _ => Except.ok ""
    refine := fun s => s
    image := fun _ => none }

def inpValid : GenInput :=
  { topic := "Sujet", ebookType := "Business", finalTarget := 50,
    isPrototype := false, opts := defaultOpts }

/-- C3 — counterexample: the backend's outline call succeeds with text that
JSON-parses to a value whose chapter list is empty — not the Outline shape,
which requires a non-empty chapter sequence — yet `generateOutline` returns
it and the whole operation completes in the `done` state with no terminal
error, refuting "fails the whole operation ... whenever it returns content
that does not parse into the Outline shape". -/
theorem c3_counterexample :
    bC3.parseOutline "x" = some { title := "T", chapters := [] }
      ∧ handleGenerate bC3 inpValid 0
          = (Outcome.done [],
              { outlineCalls := 1, contentCalls := 0, refineCalls := 0,
                imageRequests := [] })
      ∧ surfacedError (handleGenerate bC3 inpValid 0).1 = none := by
  refine ⟨rfl, by decide, by decide⟩

/-- C3 amended — `generateOutline` fails the whole operation with a terminal
error and no retry (exactly one outline call) whenever the external call
errors or the response text fails to parse as JSON; the Outline shape itself
is not validated (see the counterexample: an empty chapter list proceeds). -/
theorem c3_amended :
    (∀ (b : Backend) (inp : GenInput) (fuel : Nat) (e : String),
        jsTrim inp.topic ≠ "" → 10 ≤ inp.finalTarget → inp.finalTarget ≤ 200 →
        b.outlineResponse = Except.error e →
        handleGenerate b inp fuel
          = (Outcome.errored (caughtMessage e) [],
              { emptyTrace with outlineCalls := 1 }))
    ∧ (∀ (b : Backend) (inp : GenInput) (fuel : Nat) (t : String),
        jsTrim inp.topic ≠ "" → 10 ≤ inp.finalTarget → inp.finalTarget ≤ 200 →
        b.outlineResponse = Except.ok t →
        b.parseOutline (if t = "" then "\x7b\x7d" else t) = none →
        handleGenerate b inp fuel
          = (Outcome.errored "Erreur lors de la génération du plan." [],
              { emptyTrace with outlineCalls := 1 })) := by
  constructor
  · intro b inp fuel e htopic h10 h200 hresp
    have hout : generateOutlineCall b = Except.error e := by
      unfold generateOutlineCall
      rw [hresp]
    unfold handleGenerate
    rw [if_neg htopic, if_neg (by omega)]
    simp [hout]
  · intro b inp fuel t htopic h10 h200 hresp hparse
    have hout : generateOutlineCall b
        = Except.error "Erreur lors de la génération du plan." := by
      unfold generateOutlineCall
      rw [hresp]
      simp [hparse]
    unfold handleGenerate
    rw [if_neg htopic, if_neg (by omega)]
    simp [hout]
    decide

def bOutlineErr : Backend :=
  { outlineResponse := Except.error "panne"
    parseOutline := fun _ => none
    chapterContent := fun _ => Except.ok ""
    refine := fun s => s
    image := fun _ => none }

def bOutlineBadJson : Backend :=
  { outlineResponse := Except.ok "pas du json"
    parseOutline := fun _ => none
    chapterContent := fun _ => Except.ok ""
    refine := fun s => s
    image := fun _ => none }

/-- Witness for `c3_amended` at concrete backends: a transport error and a
parse failure. -/
theorem c3_amended_witness :
    handleGenerate bOutlineErr inpValid 0
        = (Outcome.errored (caughtMessage "panne") [],
            { emptyTrace with outlineCalls := 1 })
      ∧ handleGenerate bOutlineBadJson inpValid 0
          = (Outcome.errored "Erreur lors de la génération du plan." [],
              { emptyTrace with outlineCalls := 1 }) :=
  ⟨c3_amended.1 bOutlineErr inpValid 0 "panne" (by decide) (by decide)
      (by decide) rfl,
    c3_amended.2 bOutlineBadJson inpValid 0 "pas du json" (by decide)
      (by decide) (by decide) rfl rfl⟩

/-! ## C4 — input validation (`EbookGenerator.tsx` lines 132–148)

Both invalid inputs are rejected before any backend call and before any
state is touched, but only the page-range branch calls `setError`; an empty
(all-whitespace) topic hits `if (!topic.trim()) return;` and is rejected
*silently*, so no validation error is surfaced in that case. -/

def bC4 : Backend :=
  { outlineResponse := Except.error "panne"
    parseOutline := fun _ => none
    chapterContent := fun _ => Except.error "panne"
    refine := fun s => s
    image := fun _ => none }

def inpTopicWs : GenInput :=
  { topic := "   ", ebookType := "Business", finalTarget := 50,
    isPrototype := false, opts := defaultOpts }

/-- C4 — counterexample: an all-whitespace topic is rejected before any
generation call — zero backend calls, no chapter state — but silently: the
outcome carries no error message, refuting the claim's "a validation error is
surfaced" conjunct. -/
theorem c4_counterexample :
    handleGenerate bC4 inpTopicWs 0 = (Outcome.invalidTopic, emptyTrace)
      ∧ surfacedError (handleGenerate bC4 inpTopicWs 0).1 = none := by
  exact ⟨by decide, by decide⟩

/-- C4 amended — every invocation with an empty (all-whitespace) topic or a
target page count outside [10,200] is rejected before any generation call:
zero backend calls of any kind and no chapter state.  The out-of-range page
count surfaces the fixed validation message, while an empty topic (checked
first) is rejected silently, with no surfaced error. -/
theorem c4_amended :
    (∀ (b : Backend) (inp : GenInput) (fuel : Nat), jsTrim inp.topic = "" →
        handleGenerate b inp fuel = (Outcome.invalidTopic, emptyTrace)
          ∧ surfacedError (handleGenerate b inp fuel).1 = none)
    ∧ (∀ (b : Backend) (inp : GenInput) (fuel : Nat), jsTrim inp.topic ≠ "" →
        (inp.finalTarget < 10 ∨ 200 < inp.finalTarget) →
        handleGenerate b inp fuel
            = (Outcome.invalidPages pagesErrorMsg, emptyTrace)
          ∧ surfacedError (handleGenerate b inp fuel).1 = some pagesErrorMsg) := by
  constructor
  · intro b inp fuel h
    have heq : handleGenerate b inp fuel = (Outcome.invalidTopic, emptyTrace) := by
      unfold handleGenerate
      rw [if_pos h]
    exact ⟨heq, by rw [heq]; rfl⟩
  · intro b inp fuel ht hrange
    have heq : handleGenerate b inp fuel
        = (Outcome.invalidPages pagesErrorMsg, emptyTrace) := by
      unfold handleGenerate
      rw [if_neg ht, if_pos hrange]
    exact ⟨heq, by rw [heq]; rfl⟩

def inpBadPages : GenInput :=
  { topic := "Sujet", ebookType := "Business", finalTarget := 5,
    isPrototype := false, opts := defaultOpts }

/-- Witness for `c4_amended`: a whitespace topic and a 5-page target. -/
theorem c4_amended_witness :
    (handleGenerate bC4 inpTopicWs 1 = (Outcome.invalidTopic, emptyTrace)
        ∧ surfacedError (handleGenerate bC4 inpTopicWs 1).1 = none)
      ∧ (handleGenerate bC4 inpBadPages 1
            = (Outcome.invalidPages pagesErrorMsg, emptyTrace)
          ∧ surfacedError (handleGenerate bC4 inpBadPages 1).1
              = some pagesErrorMsg) :=
  ⟨c4_amended.1 bC4 inpTopicWs 1 (by decide),
    c4_amended.2 bC4 inpBadPages 1 (by decide) (by decide)⟩

/-! ## C7 — illustration requests (`EbookGenerator.tsx` lines 179–186) -/

lemma runChapters_done_spec (b : Backend) (inp : GenInput) (ppc fuel : Nat) :
    ∀ (plans : List ChapterPlan) (i : Nat) (acc : List Chapter) (tr : Trace)
      (chs : List Chapter) (tr' : Trace),
      runChapters b inp ppc fuel plans i acc tr = (Outcome.done chs, tr') →
      ∃ extra : List Chapter,
        chs = acc ++ extra
        ∧ extra.length = plans.length
        ∧ tr'.imageRequests
            = tr.imageRequests
              ++ (List.range' i plans.length).filter
                  (fun j => decide (j % (if inp.isPrototype then 1 else 3) = 0))
        ∧ ∀ k ch, extra.get? k = some ch →
            ch.image = if (i + k) % (if inp.isPrototype then 1 else 3) = 0
                       then b.image (i + k) else none := by
  intro plans
  induction plans with
  | nil =>
    intro i acc tr chs tr' h
    simp only [runChapters, Prod.mk.injEq, Outcome.done.injEq] at h
    obtain ⟨h1, h2⟩ := h
    refine ⟨[], by simp [h1], rfl, by simp [h2.symm], ?_⟩
    intro k ch hk
    simp at hk
  | cons plan rest ih =>
    intro i acc tr chs tr' h
    cases hc : b.chapterContent i with
    | error e => simp [runChapters, hc] at h
    | ok content0 =>
      cases he : runEnrich b.refine inp.isPrototype acc plan.title
          ((i + 1) * ppc) inp.opts fuel content0 with
      | none => simp [runChapters, hc, he] at h
      | some p =>
        obtain ⟨content, n⟩ := p
        by_cases hmod : i % (if inp.isPrototype then 1 else 3) = 0
        · simp only [runChapters, hc, he] at h
          rw [if_pos hmod] at h
          obtain ⟨extra, hchs, hlen, himg, hget⟩ := ih (i + 1) _ _ chs tr' h
          refine ⟨{ title := plan.title, content := content,
                    image := b.image i } :: extra, ?_, ?_, ?_, ?_⟩
          · rw [hchs]; simp
          · simp [hlen]
          · rw [himg]
            simp [List.range'_succ, List.filter_cons, hmod]
          · intro k ch hk
            cases k with
            | zero =>
              simp only [List.get?] at hk
              injection hk with hk
              subst hk
              rw [Nat.add_zero, if_pos hmod]
            | succ k =>
              simp only [List.get?] at hk
              have hs := hget k ch hk
              have harith : i + (k + 1) = (i + 1) + k := by omega
              rw [harith]
              exact hs
        · simp only [runChapters, hc, he] at h
          rw [if_neg hmod] at h
          obtain ⟨extra, hchs, hlen, himg, hget⟩ := ih (i + 1) _ _ chs tr' h
          refine ⟨{ title := plan.title, content := content } :: extra,
            ?_, ?_, ?_, ?_⟩
          · rw [hchs]; simp
          · simp [hlen]
          · rw [himg]
            simp [List.range'_succ, List.filter_cons, hmod]
          · intro k ch hk
            cases k with
            | zero =>
              simp only [List.get?] at hk
              injection hk with hk
              subst hk
              rw [Nat.add_zero, if_neg hmod]
            | succ k =>
              simp only [List.get?] at hk
              have hs := hget k ch hk
              have harith : i + (k + 1) = (i + 1) + k := by omega
              rw [harith]
              exact hs

/-- C7 — in every completed pipeline run: an image is requested exactly once
for chapter index `j` iff `j mod N = 0` with `N = 1` in prototype mode and
`N = 3` otherwise (the request list is exactly the filtered index range, and
each qualifying index is counted exactly once); each produced chapter carries
the backend's image answer when its index qualifies — in particular a failed
image call (`none`) leaves the chapter without an image while the pipeline
still completes — and `none` when it does not qualify. -/
theorem c7_images (b : Backend) (inp : GenInput) (fuel : Nat)
    (chs : List Chapter) (tr : Trace)
    (h : handleGenerate b inp fuel = (Outcome.done chs, tr)) :
    tr.imageRequests
        = (List.range chs.length).filter
            (fun j => decide (j % (if inp.isPrototype then 1 else 3) = 0))
      ∧ (∀ j, tr.imageRequests.count j
            = if j < chs.length ∧ j % (if inp.isPrototype then 1 else 3) = 0
              then 1 else 0)
      ∧ (∀ k ch, chs.get? k = some ch →
          ch.image = if k % (if inp.isPrototype then 1 else 3) = 0
                     then b.image k else none) := by
  unfold handleGenerate at h
  by_cases ht : jsTrim inp.topic = ""
  · rw [if_pos ht] at h
    exact absurd h (by simp)
  rw [if_neg ht] at h
  by_cases hr : inp.finalTarget < 10 ∨ 200 < inp.finalTarget
  · rw [if_pos hr] at h
    exact absurd h (by simp)
  rw [if_neg hr] at h
  cases ho : generateOutlineCall b with
  | error e => simp [ho] at h
  | ok outline =>
    simp only [ho] at h
    obtain ⟨extra, hchs, hlen, himg, hget⟩ :=
      runChapters_done_spec b inp (ceilDiv inp.finalTarget outline.chapters.length)
        fuel outline.chapters 0 [] _ chs tr h
    have hchs' : chs = extra := by simpa using hchs
    have hn : chs.length = outline.chapters.length := by rw [hchs', hlen]
    have hfilter : tr.imageRequests
        = (List.range chs.length).filter
            (fun j => decide (j % (if inp.isPrototype then 1 else 3) = 0)) := by
      rw [himg, hn, List.range_eq_range']
      simp [emptyTrace]
    refine ⟨hfilter, ?_, ?_⟩
    · intro j
      by_cases hp : j % (if inp.isPrototype then 1 else 3) = 0
      · rw [hfilter, List.count_filter (by simpa using hp)]
        by_cases hj : j < chs.length
        · rw [List.count_eq_one_of_mem (List.nodup_range _)
            (List.mem_range.mpr hj), if_pos ⟨hj, hp⟩]
        · rw [List.count_eq_zero_of_not_mem
            (fun hmem => hj (List.mem_range.mp hmem)), if_neg]
          intro hcon
          exact hj hcon.1
      · rw [hfilter, List.count_eq_zero_of_not_mem, if_neg]
        · intro hcon
          exact hp hcon.2
        · intro hmem
          have := (List.mem_filter.mp hmem).2
          simp at this
          exact hp this
    · intro k ch hk
      have := hget k ch (by rw [← hchs']; exact hk)
      simpa using this

def bC7 : Backend :=
  { outlineResponse := Except.ok "x"
    parseOutline := fun _ =>
      some { title := "T",
             chapters := [{ title := "A", sections := [] },
                          { title := "B", sections := [] }] }
    chapterContent := fun _ => Except.ok "texte"
    refine := fun s => s
    image := fun i => if i = 0 then some "IMG" else none }

def inpC7 : GenInput :=
  { topic := "Sujet", ebookType := "Business", finalTarget := 10,
    isPrototype := true, opts := defaultOpts }

def chsC7 : List Chapter :=
  [{ title := "A", content := "texte", image := some "IMG" },
   { title := "B", content := "texte", image := none }]

def trC7 : Trace :=
  { outlineCalls := 1, contentCalls := 2, refineCalls := 0,
    imageRequests := [0, 1] }

/-- Witness for `c7_images`: a completed prototype-mode run with two
chapters; images are requested for both indices (N = 1), the first request
succeeds and the second fails, and the pipeline still completes with the
second chapter image-less. -/
theorem c7_images_witness :
    handleGenerate bC7 inpC7 0 = (Outcome.done chsC7, trC7)
      ∧ (trC7.imageRequests
            = (List.range chsC7.length).filter
                (fun j => decide (j % (if inpC7.isPrototype then 1 else 3) = 0))
          ∧ (∀ j, trC7.imageRequests.count j
                = if j < chsC7.length
                      ∧ j % (if inpC7.isPrototype then 1 else 3) = 0
                  then 1 else 0)
          ∧ (∀ k ch, chsC7.get? k = some ch →
              ch.image = if k % (if inpC7.isPrototype then 1 else 3) = 0
                         then bC7.image k else none)) :=
  ⟨by decide, c7_images bC7 inpC7 0 chsC7 trC7 (by decide)⟩
